import Mathlib

/-!
# Shallow embedding of the `httpserver` lifecycle controller

This file embeds, in Lean, the Go package `httpserver` (files
`httpserver.go`, `options.go` and the mode-based revision in
`unnamed/part_001`), and proves properties of its construction,
event-multiplexing and graceful-shutdown logic.

Two revisions of the server coexist in the repository:

* the *address/port* variant (`httpserver.go`): `New(address, port,
  handler, options...)`, with shutdown hooks invoked with `s.ctx`;
* the *mode-based* variant (`unnamed/part_001`): `New(handler,
  options...)` with a `Mode` (production/development), a `watchEnabled`
  flag, a file-change watcher in development mode, and shutdown hooks
  invoked with the drain's `timeoutContext`.

External effects (the OS signal, the listener goroutine's result, the
`http.Server.Shutdown` outcome, the `go generate` exit status) are
modelled as parameters: an event trace drives the multiplexing loop and
oracle functions supply the outcomes of the external calls.
-/

set_option autoImplicit false

namespace Httpserver

/-- A Go `context.Context` value, as far as this package distinguishes
them: `context.Background()`, the run-scoped context produced by
`signal.NotifyContext` (with its cancellation status), and
`context.WithTimeout(parent, d)`. Durations are integers (seconds). -/
inductive Ctx where
  | background : Ctx
  | runScoped (canceled : Bool) : Ctx
  | withTimeout (parent : Ctx) (d : Int) : Ctx
deriving DecidableEq, Repr

/-- A Go `error` value as produced by this package: either a leaf error
(identified by its message) or the result of `errors.Join` applied to
one or to two non-nil errors.  In the source, `errors.Join` is only ever
applied to exactly two arguments (`err = errors.Join(err, hook(...))`),
so a join node with one or two children models every reachable value. -/
inductive GoError where
  | err (msg : String) : GoError
  | join1 (a : GoError) : GoError
  | join2 (a b : GoError) : GoError
deriving DecidableEq, Repr

/-- Go's `errors.Join(a, b)`: `nil` when both arguments are `nil`,
otherwise a join node wrapping the non-nil arguments in order. -/
def errorsJoin : Option GoError → Option GoError → Option GoError
  | none, none => none
  | some a, none => some (GoError.join1 a)
  | none, some b => some (GoError.join1 b)
  | some a, some b => some (GoError.join2 a b)

/-- The leaf error messages of a `GoError`, left to right (the errors an
`errors.Is`-style unwrapping traversal reaches). -/
def GoError.leaves : GoError → List String
  | .err msg => [msg]
  | .join1 a => a.leaves
  | .join2 a b => a.leaves ++ b.leaves

/-- Leaf messages of an optional error (`nil` has none). -/
def leavesOpt : Option GoError → List String
  | none => []
  | some e => e.leaves

/-- A logger capability, by provenance: the `"[http] "`-prefixed
standard-library logger built by `options.go`'s `setDefaultLogger`, the
mode-derived structured default loggers of the mode-based variant
(human-readable text for development, machine-parseable JSON for
production), or a caller-supplied logger (by identity). -/
inductive LoggerRef where
  | stdlogHTTP : LoggerRef
  | devText : LoggerRef
  | prodJSON : LoggerRef
  | user (id : Nat) : LoggerRef
deriving DecidableEq, Repr

/-- The fields of the embedded `net/http.Server` that this package reads
or writes: `Addr`, `Handler` (by identity), `ErrorLog`, and the three
passthrough timeouts set by `WithServerTimeouts`. -/
structure HTTPServer where
  addr : String
  handler : Nat
  errorLog : Option LoggerRef := none
  readTimeout : Int := 0
  writeTimeout : Int := 0
  idleTimeout : Int := 0

/-- A registered shutdown hook: `func(context.Context) error`, tagged
with a registration identity so invocations can be traced. -/
structure Hook where
  id : Nat
  act : Ctx → Option String

/-- Mode strings of the mode-based variant (`Mode` is a string type in
the source; its zero value is the empty string). -/
def ModeProduction : String := "production"

/-- The development mode string constant. -/
def ModeDevelopment : String := "development"

/-- The mode-based variant's `Server` struct (`unnamed/part_001`).  The
`ctx`/`stopCtx` fields are not stored: the run-scoped context appears as
a `Ctx` value at its use sites. -/
structure Server where
  shutdownTimeout : Int
  listenAddress : String
  mode : String
  watchEnabled : Bool
  httpServer : HTTPServer
  log : Option LoggerRef
  shutdownHooks : List Hook

/-- `options.go`: `defaultShutdownTimeout = 10 * time.Second`, in
seconds. -/
def defaultShutdownTimeout : Int := 10

/-- The options recognized by the mode-based variant.  `withLogger`,
`withShutdownTimeout` and `withServerTimeouts` are from `options.go`;
`withMode` and `withListenAddress` are declared below as modelled from
the spec (their source is not under `src/`). -/
inductive MOption where
  | withLogger (l : LoggerRef) : MOption
  | withShutdownTimeout (d : Int) : MOption
  | withServerTimeouts (readT writeT idleT : Int) : MOption
  | withMode (m : String) : MOption
  | withListenAddress (a : String) : MOption
deriving DecidableEq, Repr

/-- Semantics of one option applied to the mode-based server.
`withLogger` follows `options.go`'s `WithLogger` (sets both
`HTTPServer.ErrorLog` and `log`); `withShutdownTimeout` and
`withServerTimeouts` follow `options.go`.

Modelled from the spec: the `withMode` and `withListenAddress` option
constructors are missing from `src/` (only `options.go` of the earlier
address/port variant is present).  Per the spec's option table, "set
mode (Production/Development) selects default listen address, default
logger, and watch activation" and "`watchEnabled`: boolean derived from
mode; true only in Development", so `withMode m` stores `m` and sets
`watchEnabled` exactly when `m` is development; "set listen address
overrides the mode-derived default endpoint", so `withListenAddress`
stores the address. -/
def applyMOption (o : MOption) (s : Server) : Server :=
  match o with
  | .withLogger l =>
      { s with log := some l,
               httpServer := { s.httpServer with errorLog := some l } }
  | .withShutdownTimeout d => { s with shutdownTimeout := d }
  | .withServerTimeouts r w i =>
      { s with httpServer :=
          { s.httpServer with readTimeout := r, writeTimeout := w, idleTimeout := i } }
  | .withMode m => { s with mode := m, watchEnabled := m = ModeDevelopment }
  | .withListenAddress a => { s with listenAddress := a }

/-- Application of an option list in caller order (`for _, option :=
range options { option(srv) }`). -/
def applyMOptions (opts : List MOption) (s : Server) : Server :=
  opts.foldl (fun s o => applyMOption o s) s

/-- Modelled from the spec: the mode-based variant's `setDefaultLogger`
is not under `src/` (`src/options.go`'s `setDefaultLogger` belongs to
the earlier address/port variant — it builds a `*log.Logger`, which does
not type-check against this variant's `*slog.Logger` field).  Per the
spec: "if logger unset → mode-derived default logger (structured
human-readable for Development, structured machine-parseable for
Production)", installed through the same path as `WithLogger` (both the
controller's logger and the listener's error log). -/
def setDefaultLoggerM (s : Server) : Server :=
  let l := if s.mode = ModeProduction then LoggerRef.prodJSON else LoggerRef.devText
  { s with log := some l,
           httpServer := { s.httpServer with errorLog := some l } }

/-- The composite literal at the start of the mode-based `New`
(`unnamed/part_001` lines 46–52): explicit `shutdownTimeout` and
`Handler`; every other field at its Go zero value. -/
def initServerM (handler : Nat) : Server :=
  { shutdownTimeout := defaultShutdownTimeout
    listenAddress := ""
    mode := ""
    watchEnabled := false
    httpServer := { addr := "", handler := handler }
    log := none
    shutdownHooks := [] }

/-- The defaulting tail of the mode-based `New` (`unnamed/part_001`
lines 58–73), run after the options: mode normalization (`if srv.mode !=
ModeProduction { srv.mode = ModeDevelopment }`), then the default logger
if unset, then the mode-derived default listen address if unset (a
`switch` over the two mode constants). -/
def finalizeM (srv : Server) : Server :=
  let srv := if srv.mode ≠ ModeProduction then { srv with mode := ModeDevelopment } else srv
  let srv := if srv.log = none then setDefaultLoggerM srv else srv
  if srv.listenAddress = "" then
    if srv.mode = ModeProduction then { srv with listenAddress := "0.0.0.0:80" }
    else if srv.mode = ModeDevelopment then { srv with listenAddress := "localhost:8080" }
    else srv
  else srv

/-- The mode-based variant's `New(handler, options...)`
(`unnamed/part_001` lines 44–80): zero-value fields, then options in
order, then the defaulting tail.  The `signal.NotifyContext`
registration at the end has no configuration effect and is modelled at
`Run`'s use sites. -/
def NewM (handler : Nat) (options : List MOption) : Server :=
  finalizeM (applyMOptions options (initServerM handler))

/-- `AddShutdownHook`: appends to the hook slice. -/
def Server.addShutdownHook (s : Server) (h : Hook) : Server :=
  { s with shutdownHooks := s.shutdownHooks ++ [h] }

/-- The observable outcome of one `Run()` return: the returned error
value, the trace of hook invocations — each hook's id paired with the
context value it was called with, in invocation order — and whether the
graceful-shutdown sequence (`startGracefulShutdown`) was entered. -/
structure RunOutcome where
  result : Option GoError
  hooksRun : List (Nat × Ctx)
  drained : Bool
deriving DecidableEq, Repr

/-- The hook loop of `startGracefulShutdown`: `var err error; for _,
hook := range hooks { err = errors.Join(err, hook(ctx)) }`, with the
invocation trace recorded alongside the accumulated error. -/
def runHooks (hooks : List Hook) (ctx : Ctx) : Option GoError × List (Nat × Ctx) :=
  hooks.foldl
    (fun acc h => (errorsJoin acc.1 ((h.act ctx).map GoError.err), acc.2 ++ [(h.id, ctx)]))
    (none, [])

/-- The `timeoutContext` a given server's `startGracefulShutdown`
builds: `context.WithTimeout(context.Background(), s.shutdownTimeout)`. -/
def Server.timeoutCtx (s : Server) : Ctx :=
  Ctx.withTimeout Ctx.background s.shutdownTimeout

/-- The mode-based variant's `startGracefulShutdown` (`unnamed/part_001`
lines 139–157).  `shutdown` is the oracle for
`s.HTTPServer.Shutdown(timeoutContext)` — the outcome of the listener's
bounded graceful close — called with the context the source passes it.
On a non-nil `Shutdown` error (closing failure or context timeout) the
function returns that error at once; otherwise it runs every hook with
the same `timeoutContext` and returns the joined hook errors. -/
def Server.startGracefulShutdown (s : Server) (shutdown : Ctx → Option String) : RunOutcome :=
  let timeoutContext := s.timeoutCtx
  match shutdown timeoutContext with
  | some e => { result := some (GoError.err e), hooksRun := [], drained := true }
  | none =>
      let r := runHooks s.shutdownHooks timeoutContext
      { result := r.1, hooksRun := r.2, drained := true }

/-- One firing of the multiplexed `select` in `Run`: the listener's
result channel delivering an error, the interrupt context becoming done,
or (development mode) a file-change notification.  A `fileChange` event
carries the changed path and the oracle outcome of the `go generate`
command `handleFileChange` would run for it. -/
inductive Event where
  | srvErr (e : String) : Event
  | interrupt : Event
  | fileChange (path : String) (genErr : Option String) : Event
deriving DecidableEq, Repr

/-- Whether an event is a file-change notification. -/
def Event.isFileChange : Event → Bool
  | .fileChange _ _ => true
  | _ => false

/-- Result of driving `Run()` with a finite event trace: either `Run`
returned with an outcome, or the trace was exhausted with the controller
still blocked in the serving loop. -/
inductive RunResult where
  | returned (out : RunOutcome) : RunResult
  | serving : RunResult
deriving DecidableEq, Repr

/-- Go's `strings.HasSuffix`, on the character sequences of the two
strings (kernel-reducible, unlike `String.endsWith`). -/
def hasSuffixGo (s sfx : String) : Bool :=
  sfx.data.isSuffixOf s.data

/-- The observable effect of one `handleFileChange` call: whether the
regeneration command was attempted (`go generate` was run), and the
error message logged if it failed. -/
structure RegenOutcome where
  attempted : Bool
  loggedError : Option String
deriving DecidableEq, Repr

/-- `handleFileChange` (`unnamed/part_001` lines 159–183): a no-op when
`watchEnabled` is false or the changed path is not a `.go` file;
otherwise it runs `go generate` (outcome supplied by `genErr`) and, on
failure, logs the error and returns — the error goes nowhere else. -/
def Server.handleFileChange (s : Server) (path : String) (genErr : Option String) : RegenOutcome :=
  if !s.watchEnabled then { attempted := false, loggedError := none }
  else if !(hasSuffixGo path ".go") then { attempted := false, loggedError := none }
  else { attempted := true, loggedError := genErr }

/-- The multiplexing loop of the mode-based `Run` (`unnamed/part_001`
lines 86–133), driven by an event trace in arrival order:

* `srvErr e` — `case err := <-srvErr: return err`: return that error
  directly, no drain, no hooks;
* `interrupt` — `case <-s.ctx.Done()`: `s.stopCtx()` unregisters the
  signal notifications, the loop breaks, and `startGracefulShutdown`
  produces the final result; the remainder of the trace is never read;
* `fileChange` — `s.handleFileChange(changeEvent)` runs (its effects are
  collected by `runRegens`) and the loop continues.

The production-mode path is the restriction of the same `select` to the
first two cases, followed by the same fall-through to
`startGracefulShutdown`. -/
def Server.runLoop (s : Server) (shutdown : Ctx → Option String) : List Event → RunResult
  | [] => RunResult.serving
  | Event.srvErr e :: _ =>
      RunResult.returned { result := some (GoError.err e), hooksRun := [], drained := false }
  | Event.interrupt :: _ => RunResult.returned (s.startGracefulShutdown shutdown)
  | Event.fileChange _ _ :: rest => s.runLoop shutdown rest

/-- The `handleFileChange` outcomes produced while the loop of
`Server.runLoop` services the same trace (one per file-change event
serviced before the loop terminates). -/
def Server.runRegens (s : Server) : List Event → List RegenOutcome
  | [] => []
  | Event.srvErr _ :: _ => []
  | Event.interrupt :: _ => []
  | Event.fileChange p g :: rest => s.handleFileChange p g :: s.runRegens rest

/-! ## The address/port variant (`httpserver.go`) -/

/-- The address/port variant's `Server` struct (`httpserver.go`, the
revision with shutdown hooks): separate `address` and `port` fields and
no mode. -/
structure APServer where
  shutdownTimeout : Int
  port : Nat
  address : String
  httpServer : HTTPServer
  log : Option LoggerRef
  shutdownHooks : List Hook

/-- The options of `options.go`, the option file of the address/port
variant: `WithLogger`, `WithShutdownTimeout`, `WithServerTimeouts`. -/
inductive APOption where
  | withLogger (l : LoggerRef) : APOption
  | withShutdownTimeout (d : Int) : APOption
  | withServerTimeouts (readT writeT idleT : Int) : APOption
deriving DecidableEq, Repr

/-- `options.go` option semantics for the address/port variant.
`WithLogger` sets both `server.HTTPServer.ErrorLog` and `server.log`. -/
def applyAPOption (o : APOption) (s : APServer) : APServer :=
  match o with
  | .withLogger l =>
      { s with log := some l,
               httpServer := { s.httpServer with errorLog := some l } }
  | .withShutdownTimeout d => { s with shutdownTimeout := d }
  | .withServerTimeouts r w i =>
      { s with httpServer :=
          { s.httpServer with readTimeout := r, writeTimeout := w, idleTimeout := i } }

/-- `options.go`'s `setDefaultLogger`: builds the `"[http] "`-prefixed
stdout logger and installs it through `WithLogger` (so both the error
log and the server log point at it), with no dependence on any mode. -/
def setDefaultLoggerAP (s : APServer) : APServer :=
  applyAPOption (APOption.withLogger LoggerRef.stdlogHTTP) s

/-- Application of an address/port option list in caller order. -/
def applyAPOptions (opts : List APOption) (s : APServer) : APServer :=
  opts.foldl (fun s o => applyAPOption o s) s

/-- The composite literal at the start of the address/port `New`
(`httpserver.go` lines 28–36 / 121–129): explicit port, address,
`HTTPServer.Addr` from `fmt.Sprintf("%s:%d", address, port)`, and the
default shutdown timeout. -/
def initServerAP (address : String) (port handler : Nat) : APServer :=
  { shutdownTimeout := defaultShutdownTimeout
    port := port
    address := address
    httpServer := { addr := address ++ ":" ++ Nat.repr port, handler := handler }
    log := none
    shutdownHooks := [] }

/-- The defaulting tail of the address/port `New` (`httpserver.go`
lines 42–44 / 135–137): install the default logger if none was set. -/
def finalizeAP (srv : APServer) : APServer :=
  if srv.log = none then setDefaultLoggerAP srv else srv

/-- The address/port variant's `New(address, port, handler, options...)`
(`httpserver.go` lines 23–47 / 116–140): an empty `address` is replaced
by `"0.0.0.0"` before anything else; then the composite literal, the
options in order, and the default logger if none was set. -/
def NewAP (address : String) (port : Nat) (handler : Nat)
    (options : List APOption) : APServer :=
  let address := if address = "" then "0.0.0.0" else address
  finalizeAP (applyAPOptions options (initServerAP address port handler))

/-- `AddShutdownHook` of the address/port variant. -/
def APServer.addShutdownHook (s : APServer) (h : Hook) : APServer :=
  { s with shutdownHooks := s.shutdownHooks ++ [h] }

/-- The address/port variant's `startGracefulShutdown` (`httpserver.go`
lines 174–192).  It builds the same `timeoutContext` and passes it to
`Shutdown`, but the hook loop reads `hook(s.ctx)` — the run-scoped
context stored by `Run`, passed here as `runCtx`. -/
def APServer.startGracefulShutdown (s : APServer) (runCtx : Ctx)
    (shutdown : Ctx → Option String) : RunOutcome :=
  let timeoutContext := Ctx.withTimeout Ctx.background s.shutdownTimeout
  match shutdown timeoutContext with
  | some e => { result := some (GoError.err e), hooksRun := [], drained := true }
  | none =>
      let r := runHooks s.shutdownHooks runCtx
      { result := r.1, hooksRun := r.2, drained := true }

/-- Events the address/port `Run` multiplexes over (its `select` has no
file-change case). -/
inductive APEvent where
  | srvErr (e : String) : APEvent
  | interrupt : APEvent
deriving DecidableEq, Repr

/-- The address/port variant's `Run` (`httpserver.go` lines 146–172),
driven by an event trace.  On interrupt, `stop()` has canceled the
run-scoped signal context (`serverCtx.Done()` fired and `stop` releases
it), so the `s.ctx` that `startGracefulShutdown` hands to the hooks is
the canceled run-scoped context, `Ctx.runScoped true`. -/
def APServer.run (s : APServer) (shutdown : Ctx → Option String) :
    List APEvent → RunResult
  | [] => RunResult.serving
  | APEvent.srvErr e :: _ =>
      RunResult.returned { result := some (GoError.err e), hooksRun := [], drained := false }
  | APEvent.interrupt :: _ =>
      RunResult.returned (s.startGracefulShutdown (Ctx.runScoped true) shutdown)

/-! ## Derived notions used in statements -/

/-- Discriminator: is this option a mode option? -/
def MOption.isModeOpt : MOption → Bool
  | .withMode _ => true
  | _ => false

/-- Discriminator: is this option a listen-address option? -/
def MOption.isListenOpt : MOption → Bool
  | .withListenAddress _ => true
  | _ => false

/-- Discriminator: is this option a logger option? -/
def MOption.isLoggerOpt : MOption → Bool
  | .withLogger _ => true
  | _ => false

/-- Discriminator: is this option a shutdown-timeout option? -/
def MOption.isTimeoutOpt : MOption → Bool
  | .withShutdownTimeout _ => true
  | _ => false

/-! ## Concrete scenario inputs -/

/-- A hook that succeeds under every context. -/
def noopHook : Hook :=
  { id := 0, act := fun _ => none }

/-- A mode-based server built with no options and one registered
succeeding hook. -/
def cexServer : Server :=
  (NewM 0 []).addShutdownHook noopHook

/-- A mode-based server built with the development-mode option. -/
def devWatchServer : Server :=
  NewM 0 [MOption.withMode ModeDevelopment]

/-- A mode-based server with two registered hooks that both fail. -/
def twoFailServer : Server :=
  ((NewM 0 []).addShutdownHook { id := 0, act := fun _ => some "e1" }).addShutdownHook
    { id := 1, act := fun _ => some "e2" }

/-- Oracle for a `Shutdown` call whose deadline elapses first. -/
def timeoutShutdownOracle : Ctx → Option String :=
  fun _ => some "context deadline exceeded"

/-- Oracle for a `Shutdown` call that completes cleanly. -/
def cleanShutdownOracle : Ctx → Option String :=
  fun _ => none

/-- An address/port server built with an empty address and one
registered succeeding hook. -/
def apCexServer : APServer :=
  (NewAP "" 80 0 []).addShutdownHook noopHook

/-! ## Helper lemmas -/

/-- `errors.Join` collects the leaf messages of both arguments in
order. -/
theorem leavesOpt_errorsJoin (a b : Option GoError) :
    leavesOpt (errorsJoin a b) = leavesOpt a ++ leavesOpt b := by
  cases a <;> cases b <;> simp [errorsJoin, leavesOpt, GoError.leaves]

/-- A non-nil Go error always has at least one leaf message. -/
theorem GoError.leaves_ne_nil (e : GoError) : e.leaves ≠ [] := by
  induction e with
  | err msg => simp [GoError.leaves]
  | join1 a iha => simpa [GoError.leaves] using iha
  | join2 a b iha ihb => simp [GoError.leaves, iha]

/-- An optional error has no leaf messages exactly when it is nil. -/
theorem leavesOpt_eq_nil_iff (o : Option GoError) : leavesOpt o = [] ↔ o = none := by
  cases o with
  | none => simp [leavesOpt]
  | some e => simpa [leavesOpt] using GoError.leaves_ne_nil e

/-- Leaves of an optional leaf error built from an optional message. -/
theorem leavesOpt_map_err (g : Option String) :
    leavesOpt (g.map GoError.err) = g.toList := by
  cases g <;> rfl

/-- Invocation trace of the hook loop, generalized over the
accumulator: every hook is invoked, in order, with the given context. -/
theorem runHooks_foldl_snd (hooks : List Hook) (ctx : Ctx)
    (acc : Option GoError × List (Nat × Ctx)) :
    (hooks.foldl
      (fun acc h => (errorsJoin acc.1 ((h.act ctx).map GoError.err), acc.2 ++ [(h.id, ctx)]))
      acc).2 = acc.2 ++ hooks.map (fun h => (h.id, ctx)) := by
  induction hooks generalizing acc with
  | nil => simp
  | cons h t ih => simp [List.foldl, ih]

/-- Accumulated error of the hook loop, generalized over the
accumulator: its leaves are the previous leaves followed by the error
messages of the failing hooks, in order. -/
theorem runHooks_foldl_leaves (hooks : List Hook) (ctx : Ctx)
    (acc : Option GoError × List (Nat × Ctx)) :
    leavesOpt (hooks.foldl
      (fun acc h => (errorsJoin acc.1 ((h.act ctx).map GoError.err), acc.2 ++ [(h.id, ctx)]))
      acc).1 = leavesOpt acc.1 ++ hooks.filterMap (fun h => h.act ctx) := by
  induction hooks generalizing acc with
  | nil => simp
  | cons h t ih =>
      rw [List.foldl, ih, leavesOpt_errorsJoin, leavesOpt_map_err, List.filterMap_cons]
      cases h.act ctx <;> simp

/-- Every registered hook appears in the invocation trace with the
context passed to the loop. -/
theorem runHooks_snd (hooks : List Hook) (ctx : Ctx) :
    (runHooks hooks ctx).2 = hooks.map (fun h => (h.id, ctx)) := by
  simpa using runHooks_foldl_snd hooks ctx (none, [])

/-- The leaves of the joined hook error are exactly the failing hooks'
messages, in registration order. -/
theorem runHooks_leaves (hooks : List Hook) (ctx : Ctx) :
    leavesOpt (runHooks hooks ctx).1 = hooks.filterMap (fun h => h.act ctx) := by
  simpa [leavesOpt] using runHooks_foldl_leaves hooks ctx (none, [])

/-- The joined hook error is nil exactly when every hook succeeded. -/
theorem runHooks_fst_eq_none_iff (hooks : List Hook) (ctx : Ctx) :
    (runHooks hooks ctx).1 = none ↔ ∀ h ∈ hooks, h.act ctx = none := by
  rw [← leavesOpt_eq_nil_iff, runHooks_leaves, List.filterMap_eq_nil_iff]

/-- On a clean listener close, `startGracefulShutdown` reduces to the
hook loop over `timeoutCtx`. -/
theorem startGracefulShutdown_clean (s : Server) (shutdown : Ctx → Option String)
    (hclean : shutdown s.timeoutCtx = none) :
    s.startGracefulShutdown shutdown
      = { result := (runHooks s.shutdownHooks s.timeoutCtx).1
          hooksRun := (runHooks s.shutdownHooks s.timeoutCtx).2
          drained := true } := by
  simp only [Server.startGracefulShutdown, hclean]

/-- On a failed listener close, `startGracefulShutdown` returns that
error alone, with no hook invoked. -/
theorem startGracefulShutdown_failed (s : Server) (shutdown : Ctx → Option String)
    (e : String) (herr : shutdown s.timeoutCtx = some e) :
    s.startGracefulShutdown shutdown
      = { result := some (GoError.err e), hooksRun := [], drained := true } := by
  simp only [Server.startGracefulShutdown, herr]

/-- A prefix of file-change events is consumed without leaving the
serving loop. -/
theorem runLoop_fileChange_prefixConsumed (s : Server) (shutdown : Ctx → Option String)
    (pre tail : List Event) (hpre : ∀ ev ∈ pre, ev.isFileChange = true) :
    s.runLoop shutdown (pre ++ tail) = s.runLoop shutdown tail := by
  induction pre with
  | nil => rfl
  | cons ev t ih =>
      cases ev with
      | srvErr e => simpa [Event.isFileChange] using hpre _ (List.mem_cons_self _ _)
      | interrupt => simpa [Event.isFileChange] using hpre _ (List.mem_cons_self _ _)
      | fileChange p g =>
          rw [List.cons_append, Server.runLoop]
          exact ih (fun ev hm => hpre ev (List.mem_cons_of_mem _ hm))

/-- `setDefaultLoggerM` only touches the logger fields. -/
theorem setDefaultLoggerM_mode (s : Server) : (setDefaultLoggerM s).mode = s.mode := rfl

/-- `setDefaultLoggerM` leaves the listen address alone. -/
theorem setDefaultLoggerM_listen (s : Server) :
    (setDefaultLoggerM s).listenAddress = s.listenAddress := rfl

/-- `setDefaultLoggerM` leaves the shutdown timeout alone. -/
theorem setDefaultLoggerM_timeout (s : Server) :
    (setDefaultLoggerM s).shutdownTimeout = s.shutdownTimeout := rfl

/-- `setDefaultLoggerM` installs the mode-derived default logger. -/
theorem setDefaultLoggerM_log (s : Server) :
    (setDefaultLoggerM s).log
      = some (if s.mode = ModeProduction then LoggerRef.prodJSON else LoggerRef.devText) := rfl

/-- The two mode constants are distinct strings. -/
theorem modeDev_ne_modeProd : ModeDevelopment ≠ ModeProduction := by
  simp [ModeDevelopment, ModeProduction]

/-- The defaulting tail normalizes the mode to one of the two
constants: production if it was production, development otherwise. -/
theorem finalizeM_mode (s : Server) :
    (finalizeM s).mode = if s.mode = ModeProduction then ModeProduction else ModeDevelopment := by
  unfold finalizeM
  by_cases hm : s.mode = ModeProduction <;>
  by_cases hl : s.log = none <;>
  by_cases ha : s.listenAddress = "" <;>
    simp [hm, hl, ha, setDefaultLoggerM, modeDev_ne_modeProd]

/-- The defaulting tail preserves the shutdown timeout. -/
theorem finalizeM_timeout (s : Server) :
    (finalizeM s).shutdownTimeout = s.shutdownTimeout := by
  unfold finalizeM
  by_cases hm : s.mode = ModeProduction <;>
  by_cases hl : s.log = none <;>
  by_cases ha : s.listenAddress = "" <;>
    simp [hm, hl, ha, setDefaultLoggerM, modeDev_ne_modeProd]

/-- The defaulting tail preserves the watch flag. -/
theorem finalizeM_watch (s : Server) :
    (finalizeM s).watchEnabled = s.watchEnabled := by
  unfold finalizeM
  by_cases hm : s.mode = ModeProduction <;>
  by_cases hl : s.log = none <;>
  by_cases ha : s.listenAddress = "" <;>
    simp [hm, hl, ha, setDefaultLoggerM, modeDev_ne_modeProd]

/-- The defaulting tail preserves the hook list. -/
theorem finalizeM_hooks (s : Server) :
    (finalizeM s).shutdownHooks = s.shutdownHooks := by
  unfold finalizeM
  by_cases hm : s.mode = ModeProduction <;>
  by_cases hl : s.log = none <;>
  by_cases ha : s.listenAddress = "" <;>
    simp [hm, hl, ha, setDefaultLoggerM, modeDev_ne_modeProd]

/-- When no option set a logger, the defaulting tail installs the
mode-derived default logger, computed after mode normalization. -/
theorem finalizeM_log_default (s : Server) (hlog : s.log = none) :
    (finalizeM s).log
      = some (if (finalizeM s).mode = ModeProduction then LoggerRef.prodJSON
              else LoggerRef.devText) := by
  rw [finalizeM_mode]
  unfold finalizeM
  by_cases hm : s.mode = ModeProduction <;>
  by_cases ha : s.listenAddress = "" <;>
    simp [hm, ha, hlog, setDefaultLoggerM, modeDev_ne_modeProd]

/-- When no option set a listen address, the defaulting tail installs
the mode-derived default endpoint. -/
theorem finalizeM_listen_default (s : Server) (haddr : s.listenAddress = "") :
    (finalizeM s).listenAddress
      = if (finalizeM s).mode = ModeProduction then "0.0.0.0:80" else "localhost:8080" := by
  rw [finalizeM_mode]
  unfold finalizeM
  by_cases hm : s.mode = ModeProduction <;>
  by_cases hl : s.log = none <;>
    simp [hm, hl, haddr, setDefaultLoggerM, modeDev_ne_modeProd]

/-- An option list without a mode option leaves the mode field alone. -/
theorem applyMOptions_mode (opts : List MOption) (s : Server)
    (h : opts.any MOption.isModeOpt = false) :
    (applyMOptions opts s).mode = s.mode := by
  induction opts generalizing s with
  | nil => rfl
  | cons o t ih =>
      simp only [List.any_cons, Bool.or_eq_false_iff] at h
      cases o with
      | withMode m => simp [MOption.isModeOpt] at h
      | withLogger l => exact (ih _ h.2).trans rfl
      | withShutdownTimeout d => exact (ih _ h.2).trans rfl
      | withServerTimeouts r w i => exact (ih _ h.2).trans rfl
      | withListenAddress a => exact (ih _ h.2).trans rfl

/-- An option list without a listen-address option leaves the listen
address alone. -/
theorem applyMOptions_listen (opts : List MOption) (s : Server)
    (h : opts.any MOption.isListenOpt = false) :
    (applyMOptions opts s).listenAddress = s.listenAddress := by
  induction opts generalizing s with
  | nil => rfl
  | cons o t ih =>
      simp only [List.any_cons, Bool.or_eq_false_iff] at h
      cases o with
      | withListenAddress a => simp [MOption.isListenOpt] at h
      | withLogger l => exact (ih _ h.2).trans rfl
      | withShutdownTimeout d => exact (ih _ h.2).trans rfl
      | withServerTimeouts r w i => exact (ih _ h.2).trans rfl
      | withMode m => exact (ih _ h.2).trans rfl

/-- An option list without a logger option leaves the logger field
alone. -/
theorem applyMOptions_log (opts : List MOption) (s : Server)
    (h : opts.any MOption.isLoggerOpt = false) :
    (applyMOptions opts s).log = s.log := by
  induction opts generalizing s with
  | nil => rfl
  | cons o t ih =>
      simp only [List.any_cons, Bool.or_eq_false_iff] at h
      cases o with
      | withLogger l => simp [MOption.isLoggerOpt] at h
      | withListenAddress a => exact (ih _ h.2).trans rfl
      | withShutdownTimeout d => exact (ih _ h.2).trans rfl
      | withServerTimeouts r w i => exact (ih _ h.2).trans rfl
      | withMode m => exact (ih _ h.2).trans rfl

/-- An option list without a shutdown-timeout option leaves the
shutdown timeout alone. -/
theorem applyMOptions_timeout (opts : List MOption) (s : Server)
    (h : opts.any MOption.isTimeoutOpt = false) :
    (applyMOptions opts s).shutdownTimeout = s.shutdownTimeout := by
  induction opts generalizing s with
  | nil => rfl
  | cons o t ih =>
      simp only [List.any_cons, Bool.or_eq_false_iff] at h
      cases o with
      | withShutdownTimeout d => simp [MOption.isTimeoutOpt] at h
      | withLogger l => exact (ih _ h.2).trans rfl
      | withListenAddress a => exact (ih _ h.2).trans rfl
      | withServerTimeouts r w i => exact (ih _ h.2).trans rfl
      | withMode m => exact (ih _ h.2).trans rfl

/-- If every shutdown-timeout option in the list carries a positive
duration, the timeout stays positive across option application. -/
theorem applyMOptions_timeout_pos (opts : List MOption) (s : Server)
    (hs : 0 < s.shutdownTimeout)
    (h : ∀ d : Int, MOption.withShutdownTimeout d ∈ opts → 0 < d) :
    0 < (applyMOptions opts s).shutdownTimeout := by
  induction opts generalizing s with
  | nil => exact hs
  | cons o t ih =>
      cases o with
      | withShutdownTimeout d =>
          exact ih { s with shutdownTimeout := d }
            (h d (List.mem_cons_self _ _))
            (fun d hd => h d (List.mem_cons_of_mem _ hd))
      | withLogger l => exact ih _ hs (fun d hd => h d (List.mem_cons_of_mem _ hd))
      | withListenAddress a => exact ih _ hs (fun d hd => h d (List.mem_cons_of_mem _ hd))
      | withServerTimeouts r w i => exact ih _ hs (fun d hd => h d (List.mem_cons_of_mem _ hd))
      | withMode m => exact ih _ hs (fun d hd => h d (List.mem_cons_of_mem _ hd))

/-- Address/port options never touch the `address` field. -/
theorem applyAPOption_address (o : APOption) (s : APServer) :
    (applyAPOption o s).address = s.address := by
  cases o <;> rfl

/-- Folding address/port options preserves the `address` field. -/
theorem applyAPOptions_address (opts : List APOption) (s : APServer) :
    (applyAPOptions opts s).address = s.address := by
  induction opts generalizing s with
  | nil => rfl
  | cons o t ih => exact (ih _).trans (applyAPOption_address o s)

/-- The address/port defaulting tail preserves the `address` field. -/
theorem finalizeAP_address (s : APServer) : (finalizeAP s).address = s.address := by
  unfold finalizeAP
  split <;> rfl

/-! ## Claim theorems -/

/-- Claim C1, counterexample.  A server with one registered hook whose
drain deadline elapses before `Shutdown` completes: `Run()`'s result is
the timeout error, but `startGracefulShutdown` returns that error
immediately, so the invocation trace is empty even though hook 0 is
registered — the timeout error does prevent hook execution, refuting
the claim. -/
theorem c1_counterexample :
    cexServer.runLoop timeoutShutdownOracle [Event.interrupt]
      = RunResult.returned
          { result := some (GoError.err "context deadline exceeded")
            hooksRun := []
            drained := true }
    ∧ cexServer.shutdownHooks.map Hook.id = [0] :=
  ⟨rfl, rfl⟩

/-- Claim C1, amended.  If the drain deadline elapses before the
listener's graceful close completes, `Run()` returns the timeout error
from `Shutdown` alone, and no registered shutdown hook is invoked. -/
theorem c1_amended (s : Server) (shutdown : Ctx → Option String) (e : String)
    (h : shutdown s.timeoutCtx = some e) :
    s.runLoop shutdown [Event.interrupt]
      = RunResult.returned
          { result := some (GoError.err e), hooksRun := [], drained := true } := by
  show RunResult.returned (s.startGracefulShutdown shutdown) = _
  rw [startGracefulShutdown_failed s shutdown e h]

/-- Claim C1, witness for the amended theorem at the scenario of the
counterexample. -/
theorem c1_amended_witness :
    cexServer.runLoop timeoutShutdownOracle [Event.interrupt]
      = RunResult.returned
          { result := some (GoError.err "context deadline exceeded")
            hooksRun := []
            drained := true } :=
  c1_amended cexServer timeoutShutdownOracle "context deadline exceeded" rfl

/-- Claim C2, counterexample.  With no options applied, `New` of the
mode-based variant defaults the mode to development but never writes
`watchEnabled`, which keeps its zero value `false` — so `watchEnabled`
is not true exactly when the mode is development. -/
theorem c2_counterexample :
    (NewM 0 []).mode = ModeDevelopment ∧ (NewM 0 []).watchEnabled = false :=
  ⟨rfl, rfl⟩

/-- Claim C2, amended.  `watchEnabled` is set only by the (spec-modelled)
mode option, never derived by `New` itself: with no options the mode
defaults to development while `watchEnabled` stays false; after
construction with the development-mode option `watchEnabled` is true and
a relevant (`.go`) file-change event leads to a regeneration attempt. -/
theorem c2_amended (hd : Nat) (p : String) (g : Option String)
    (hp : hasSuffixGo p ".go" = true) :
    (NewM hd []).watchEnabled = false
    ∧ (NewM hd [MOption.withMode ModeDevelopment]).watchEnabled = true
    ∧ (NewM hd [MOption.withMode ModeDevelopment]).handleFileChange p g
        = { attempted := true, loggedError := g }
    ∧ (NewM hd [MOption.withMode ModeDevelopment]).runRegens [Event.fileChange p g]
        = [{ attempted := true, loggedError := g }] := by
  have hw : (NewM hd [MOption.withMode ModeDevelopment]).watchEnabled = true := rfl
  have hfc : (NewM hd [MOption.withMode ModeDevelopment]).handleFileChange p g
      = { attempted := true, loggedError := g } := by
    simp [Server.handleFileChange, hw, hp]
  exact ⟨rfl, hw, hfc, by simp [Server.runRegens, hfc]⟩

/-- Claim C2, witness for the amended theorem: a changed `main.go` with
a failing regeneration command. -/
theorem c2_amended_witness :
    (NewM 0 []).watchEnabled = false
    ∧ (NewM 0 [MOption.withMode ModeDevelopment]).watchEnabled = true
    ∧ (NewM 0 [MOption.withMode ModeDevelopment]).handleFileChange "main.go" (some "exit status 1")
        = { attempted := true, loggedError := some "exit status 1" }
    ∧ (NewM 0 [MOption.withMode ModeDevelopment]).runRegens
        [Event.fileChange "main.go" (some "exit status 1")]
        = [{ attempted := true, loggedError := some "exit status 1" }] :=
  c2_amended 0 "main.go" (some "exit status 1") (by decide)

/-- Claim C3, confirmed.  After an interrupt and a clean listener close,
every registered hook is invoked, in registration order, with the drain
deadline context and without short-circuiting; the leaves of `Run()`'s
aggregated result are exactly the failing hooks' errors in order (so for
every subset of failing hooks, each failure appears — two failing hooks
are both reported); and the result is nil exactly when every hook
succeeded. -/
theorem c3_hook_aggregation (s : Server) (shutdown : Ctx → Option String)
    (hclean : shutdown s.timeoutCtx = none) :
    s.runLoop shutdown [Event.interrupt] = RunResult.returned (s.startGracefulShutdown shutdown)
    ∧ (s.startGracefulShutdown shutdown).hooksRun
        = s.shutdownHooks.map (fun h => (h.id, s.timeoutCtx))
    ∧ leavesOpt (s.startGracefulShutdown shutdown).result
        = s.shutdownHooks.filterMap (fun h => h.act s.timeoutCtx)
    ∧ ((s.startGracefulShutdown shutdown).result = none
        ↔ ∀ h ∈ s.shutdownHooks, h.act s.timeoutCtx = none) := by
  have hred := startGracefulShutdown_clean s shutdown hclean
  refine ⟨rfl, ?_, ?_, ?_⟩
  · rw [hred]
    exact runHooks_snd _ _
  · rw [hred]
    exact runHooks_leaves _ _
  · rw [hred]
    exact runHooks_fst_eq_none_iff _ _

/-- Claim C3, witness: with two registered hooks that both fail, both
error messages appear in the aggregated result, in registration order,
and both hooks were invoked with the deadline context. -/
theorem c3_hook_aggregation_witness :
    leavesOpt (twoFailServer.startGracefulShutdown cleanShutdownOracle).result = ["e1", "e2"]
    ∧ (twoFailServer.startGracefulShutdown cleanShutdownOracle).hooksRun
        = [(0, twoFailServer.timeoutCtx), (1, twoFailServer.timeoutCtx)] := by
  have h := c3_hook_aggregation twoFailServer cleanShutdownOracle rfl
  exact ⟨h.2.2.1.trans rfl, h.2.1.trans rfl⟩

/-- Claim C4, code bug.  The claim (and the spec) say every hook
receives the deadline context derived from the process root scope.  The
mode-based variant does (second conjunct), but the address/port
variant's `startGracefulShutdown` invokes its hook with `s.ctx` — the
run-scoped signal context that `stop()` already canceled — and not the
deadline context (first and third conjuncts). -/
theorem c4_hook_context_divergence :
    apCexServer.run cleanShutdownOracle [APEvent.interrupt]
      = RunResult.returned
          { result := none, hooksRun := [(0, Ctx.runScoped true)], drained := true }
    ∧ (cexServer.startGracefulShutdown cleanShutdownOracle).hooksRun
        = [(0, cexServer.timeoutCtx)]
    ∧ Ctx.runScoped true ≠ Ctx.withTimeout Ctx.background apCexServer.shutdownTimeout :=
  ⟨rfl, rfl, by decide⟩

/-- Claim C5, confirmed.  If the listener's goroutine reports an error
before any interrupt (after any number of serviced file-change events),
`Run()` returns exactly that error, the drain phase is never entered,
and no shutdown hook is invoked. -/
theorem c5_listener_failure (s : Server) (shutdown : Ctx → Option String)
    (e : String) (pre rest : List Event)
    (hpre : ∀ ev ∈ pre, ev.isFileChange = true) :
    s.runLoop shutdown (pre ++ Event.srvErr e :: rest)
      = RunResult.returned
          { result := some (GoError.err e), hooksRun := [], drained := false } := by
  rw [runLoop_fileChange_prefixConsumed s shutdown pre _ hpre]
  rfl

/-- Claim C5, witness: a bind failure delivered on the result channel
after one file-change event. -/
theorem c5_listener_failure_witness :
    cexServer.runLoop cleanShutdownOracle
        [Event.fileChange "main.go" none, Event.srvErr "listen tcp: address already in use"]
      = RunResult.returned
          { result := some (GoError.err "listen tcp: address already in use")
            hooksRun := []
            drained := false } :=
  c5_listener_failure cexServer cleanShutdownOracle "listen tcp: address already in use"
    [Event.fileChange "main.go" none] []
    (by intro ev hm
        rw [List.mem_singleton] at hm
        subst hm
        rfl)

/-- Claim C6, confirmed.  At construction completion of the mode-based
variant, for every option sequence: with no mode option the mode is
development; with no listen-address option the listen address is the
mode-derived default (`localhost:8080` for development, `0.0.0.0:80` for
production); with no logger option the mode-derived default logger is
installed (human-readable text for development, machine-parseable JSON
for production).  The mode/listen-address options and the mode-aware
default logger are spec-modelled (see `applyMOption`,
`setDefaultLoggerM`). -/
theorem c6_construction_defaults (hd : Nat) (opts : List MOption) :
    (opts.any MOption.isModeOpt = false → (NewM hd opts).mode = ModeDevelopment)
    ∧ (opts.any MOption.isListenOpt = false →
        (NewM hd opts).listenAddress
          = if (NewM hd opts).mode = ModeProduction then "0.0.0.0:80" else "localhost:8080")
    ∧ (opts.any MOption.isLoggerOpt = false →
        (NewM hd opts).log
          = some (if (NewM hd opts).mode = ModeProduction then LoggerRef.prodJSON
                  else LoggerRef.devText)) := by
  refine ⟨?_, ?_, ?_⟩
  · intro h
    rw [NewM, finalizeM_mode, applyMOptions_mode _ _ h]
    simp [initServerM, ModeProduction]
  · intro h
    rw [NewM]
    exact finalizeM_listen_default _ ((applyMOptions_listen _ _ h).trans rfl)
  · intro h
    rw [NewM]
    exact finalizeM_log_default _ ((applyMOptions_log _ _ h).trans rfl)

/-- Claim C6, witness: an option list setting only the shutdown timeout
yields the development defaults, and a production-mode option list with
no listen address or logger yields the production defaults. -/
theorem c6_construction_defaults_witness :
    (NewM 0 [MOption.withShutdownTimeout 7]).mode = ModeDevelopment
    ∧ (NewM 0 [MOption.withShutdownTimeout 7]).listenAddress = "localhost:8080"
    ∧ (NewM 0 [MOption.withShutdownTimeout 7]).log = some LoggerRef.devText
    ∧ (NewM 0 [MOption.withMode ModeProduction]).listenAddress = "0.0.0.0:80"
    ∧ (NewM 0 [MOption.withMode ModeProduction]).log = some LoggerRef.prodJSON := by
  have hdev := c6_construction_defaults 0 [MOption.withShutdownTimeout 7]
  have hprod := c6_construction_defaults 0 [MOption.withMode ModeProduction]
  exact ⟨hdev.1 rfl, (hdev.2.1 rfl).trans rfl, (hdev.2.2 rfl).trans rfl,
    (hprod.2.1 rfl).trans rfl, (hprod.2.2 rfl).trans rfl⟩

/-- Claim C7, counterexample.  `WithShutdownTimeout` stores its argument
without validation, so the option sequence `[withShutdownTimeout 0]`
produces a server whose shutdown timeout is not strictly positive,
refuting the claim's "for every option sequence". -/
theorem c7_counterexample :
    ¬ (0 < (NewM 0 [MOption.withShutdownTimeout 0]).shutdownTimeout) := by
  decide

/-- Claim C7, amended.  `shutdownTimeout` equals the fixed default
constant 10 when no shutdown-timeout option was applied, and it is
strictly positive whenever every applied shutdown-timeout option carries
a positive duration (in particular by default); `WithShutdownTimeout`
itself performs no validation. -/
theorem c7_amended (hd : Nat) (opts : List MOption)
    (hpos : ∀ d : Int, MOption.withShutdownTimeout d ∈ opts → 0 < d) :
    0 < (NewM hd opts).shutdownTimeout
    ∧ (opts.any MOption.isTimeoutOpt = false →
        (NewM hd opts).shutdownTimeout = defaultShutdownTimeout ∧ defaultShutdownTimeout = 10) := by
  constructor
  · rw [NewM, finalizeM_timeout]
    exact applyMOptions_timeout_pos opts _ (by norm_num : (0:Int) < 10) hpos
  · intro h
    rw [NewM, finalizeM_timeout, applyMOptions_timeout opts _ h]
    exact ⟨rfl, rfl⟩

/-- Claim C7, witness for the amended theorem: a positive explicit
timeout stays positive, and with no timeout option the default 10 is
installed. -/
theorem c7_amended_witness :
    0 < (NewM 0 [MOption.withShutdownTimeout 5]).shutdownTimeout
    ∧ ((NewM 0 []).shutdownTimeout = defaultShutdownTimeout ∧ defaultShutdownTimeout = 10) := by
  have h1 := c7_amended 0 [MOption.withShutdownTimeout 5] (by
    intro d hmem
    rw [List.mem_singleton] at hmem
    injection hmem with hd5
    subst hd5
    decide)
  have h2 := c7_amended 0 [] (by
    intro d hmem
    exact absurd hmem (List.not_mem_nil _))
  exact ⟨h1.1, h2.2 rfl⟩

/-- Claim C8, confirmed.  Once the first interrupt is observed (after
any prefix of serviced file-change events), `Run()`'s result is the
graceful-shutdown outcome and is entirely independent of any events
after the interrupt: a second interrupt delivered while draining is
never serviced and neither re-enters the drain sequence nor alters the
result. -/
theorem c8_interrupt_once (s : Server) (shutdown : Ctx → Option String)
    (pre rest rest2 : List Event)
    (hpre : ∀ ev ∈ pre, ev.isFileChange = true) :
    s.runLoop shutdown (pre ++ Event.interrupt :: rest)
      = RunResult.returned (s.startGracefulShutdown shutdown)
    ∧ s.runLoop shutdown (pre ++ Event.interrupt :: rest)
      = s.runLoop shutdown (pre ++ Event.interrupt :: rest2) := by
  have h1 := runLoop_fileChange_prefixConsumed s shutdown pre (Event.interrupt :: rest) hpre
  have h2 := runLoop_fileChange_prefixConsumed s shutdown pre (Event.interrupt :: rest2) hpre
  constructor
  · rw [h1]
    rfl
  · rw [h1, h2]
    rfl

/-- Claim C8, witness: a trace with a second interrupt right behind the
first produces exactly the single-interrupt result. -/
theorem c8_interrupt_once_witness :
    cexServer.runLoop cleanShutdownOracle [Event.interrupt, Event.interrupt]
      = RunResult.returned (cexServer.startGracefulShutdown cleanShutdownOracle)
    ∧ cexServer.runLoop cleanShutdownOracle [Event.interrupt, Event.interrupt]
      = cexServer.runLoop cleanShutdownOracle [Event.interrupt] :=
  c8_interrupt_once cexServer cleanShutdownOracle [] [Event.interrupt] []
    (fun ev hm => absurd hm (List.not_mem_nil ev))

/-- Claim C9, confirmed.  In development mode (watch enabled), a failing
regeneration action for a relevant `.go` change is logged and handling
degrades to a no-op: the loop's result is the same as if the event had
not occurred (so the failure never reaches `Run()`'s returned result),
and a trace consisting of the file-change event alone leaves the
controller serving. -/
theorem c9_regen_failure_noop (s : Server) (shutdown : Ctx → Option String)
    (p e : String) (g : Option String) (rest : List Event)
    (hw : s.watchEnabled = true) (hp : hasSuffixGo p ".go" = true) :
    s.handleFileChange p (some e) = { attempted := true, loggedError := some e }
    ∧ s.runLoop shutdown (Event.fileChange p (some e) :: rest) = s.runLoop shutdown rest
    ∧ s.runLoop shutdown [Event.fileChange p g] = RunResult.serving := by
  refine ⟨?_, rfl, rfl⟩
  simp [Server.handleFileChange, hw, hp]

/-- Claim C9, witness: a failing `go generate` for `main.go` on the
development-mode server is logged, does not change the result of a trace
that later receives an interrupt, and leaves a file-change-only trace
serving. -/
theorem c9_regen_failure_noop_witness :
    devWatchServer.handleFileChange "main.go" (some "exit status 1")
      = { attempted := true, loggedError := some "exit status 1" }
    ∧ devWatchServer.runLoop cleanShutdownOracle
        [Event.fileChange "main.go" (some "exit status 1"), Event.interrupt]
      = devWatchServer.runLoop cleanShutdownOracle [Event.interrupt]
    ∧ devWatchServer.runLoop cleanShutdownOracle [Event.fileChange "main.go" none]
      = RunResult.serving :=
  c9_regen_failure_noop devWatchServer cleanShutdownOracle "main.go" "exit status 1" none
    [Event.interrupt] rfl (by decide)

/-- The `address` field of the address/port variant after construction:
the empty string is replaced by `0.0.0.0` before anything else, and no
option ever changes it. -/
theorem NewAP_address (address : String) (port handler : Nat) (opts : List APOption) :
    (NewAP address port handler opts).address
      = if address = "" then "0.0.0.0" else address := by
  simp only [NewAP]
  rw [finalizeAP_address, applyAPOptions_address]
  rfl

/-- Claim C10, confirmed.  In `New(address, port, handler, ...)` of the
address/port variant, an empty address is silently replaced by
`0.0.0.0` before any option runs — construction with `""` is
indistinguishable from construction with `"0.0.0.0"` — and the
resulting listen spec is `0.0.0.0:<port>`. -/
theorem c10_empty_address (port : Nat) (handler : Nat) (opts : List APOption) :
    NewAP "" port handler opts = NewAP "0.0.0.0" port handler opts
    ∧ (NewAP "" port handler opts).address = "0.0.0.0"
    ∧ (NewAP "" port handler []).httpServer.addr = "0.0.0.0:" ++ Nat.repr port := by
  refine ⟨rfl, ?_, rfl⟩
  rw [NewAP_address]
  rfl

/-- Claim C10, witness at the example program's port 3000. -/
theorem c10_empty_address_witness :
    NewAP "" 3000 7 [] = NewAP "0.0.0.0" 3000 7 []
    ∧ (NewAP "" 3000 7 []).address = "0.0.0.0"
    ∧ (NewAP "" 3000 7 []).httpServer.addr = "0.0.0.0:" ++ Nat.repr 3000 :=
  c10_empty_address 3000 7 []

end Httpserver
